import Mathlib

/-!
Shallow embedding of the simple-wm reparenting window manager
(`src/main.rs`).  The manager state is the root window, the client
registry (a client-to-frame map, modelling the `HashMap<Window, Window>`)
and the single `DragInfo` slot.  Calls the handlers make to the X server
are recorded as a trace of `XCmd` values; results the handlers read back
from the server (window attributes in `frame`, frame geometry in
`button_press`) are passed in as oracle parameters, since the server is
an external collaborator.
-/

namespace SimpleWM

/-- X window identifier (`c_ulong` in the source). -/
abbrev Window := Nat

/-! X11 constants used by the source (values from `x11::xlib`). -/

def Button1 : Nat := 1

def Button3 : Nat := 3

def Button1Mask : Nat := 256

def Button3Mask : Nat := 1024

def Mod1Mask : Nat := 8

def SubstructureNotifyMask : Nat := 524288

def SubstructureRedirectMask : Nat := 1048576

def ButtonPressMask : Nat := 4

def ButtonReleaseMask : Nat := 8

def ButtonMotionMask : Nat := 8192

def IsViewable : Int := 2

/-! Configure-mask bits (`CWX`, `CWY`, `CWWidth`, `CWHeight`,
`CWBorderWidth`, `CWSibling`, `CWStackMode`). -/

def CWX : Nat := 1

def CWY : Nat := 2

def CWWidth : Nat := 4

def CWHeight : Nat := 8

def CWBorderWidth : Nat := 16

def CWSibling : Nat := 32

def CWStackMode : Nat := 64

/-- Rust `as c_uint` on a `c_int` value: two's-complement truncation of an
`i32` value to `u32`. -/
def asU32 (i : Int) : Nat := (i % (2 ^ 32 : Int)).toNat

/-- Rust `as c_int` on a `c_uint` value: reinterpret a `u32` value as `i32`. -/
def asI32 (n : Nat) : Int :=
  if n % 2 ^ 32 < 2 ^ 31 then ((n % 2 ^ 32 : Nat) : Int)
  else ((n % 2 ^ 32 : Nat) : Int) - 2 ^ 32

/-- Rust `as c_uint` on a `c_ulong` value: truncation of `u64` to `u32`. -/
def truncU32 (n : Nat) : Nat := n % 2 ^ 32

/-- The fields of `XWindowAttributes` the source reads. -/
structure XWindowAttributes where
  x : Int
  y : Int
  width : Int
  height : Int
  override_redirect : Int
  map_state : Int
deriving Repr, DecidableEq

/-- The drag slot (`struct DragInfo`); `Default` zero-initializes it. -/
structure DragInfo where
  start_pos : Int × Int
  start_frame_pos : Int × Int
  start_frame_size : Int × Int
deriving Repr, DecidableEq

/-- `DragInfo::default()`: every field zero. -/
def DragInfo.default : DragInfo := ⟨(0, 0), (0, 0), (0, 0)⟩

/-- The client registry: the source `HashMap<Window, Window>` from client
window to frame window, modelled as an association list. -/
abbrev Registry := List (Window × Window)

/-- `HashMap::contains_key`. -/
def containsKey (m : Registry) (w : Window) : Bool :=
  m.any (fun p => p.1 == w)

/-- `HashMap::index` (`self.clients[&w]`); only reached after a
`contains_key` check in the source, so the default is never relevant. -/
def lookupKey (m : Registry) (w : Window) : Window :=
  ((m.find? (fun p => p.1 == w)).map Prod.snd).getD 0

/-- `HashMap::remove`. -/
def eraseKey (m : Registry) (w : Window) : Registry :=
  m.filter (fun p => p.1 != w)

/-- `HashMap::insert` (replace any existing binding for the key). -/
def insertKey (m : Registry) (w f : Window) : Registry :=
  (w, f) :: eraseKey m w

/-- The manager state: `struct WindowManager` minus the raw display
connection handle. -/
structure WMState where
  root : Window
  clients : Registry
  drag : DragInfo
deriving Repr, DecidableEq

/-- `XWindowChanges` as filled in by `configure_request`. -/
structure XWindowChanges where
  x : Int
  y : Int
  width : Int
  height : Int
  border_width : Int
  sibling : Window
  stack_mode : Int
deriving Repr, DecidableEq

/-- One call into the X server.  `getWindowAttributes` and `getGeometry`
are round-trip queries; the rest are commands.  `grabKeyAltF4` stands for
the `XGrabKey` of `XKeysymToKeycode(XK_F4)` with `Mod1Mask`. -/
inductive XCmd where
  | getWindowAttributes (w : Window)
  | createSimpleWindow (parent : Window) (x y : Int) (width height : Nat)
      (border_width : Nat) (border background : Nat)
  | selectInput (w : Window) (mask : Nat)
  | addToSaveSet (w : Window)
  | reparentWindow (w parent : Window) (x y : Int)
  | mapWindow (w : Window)
  | grabButton (button modifiers : Nat) (w : Window) (eventMask : Nat)
  | grabKeyAltF4 (w : Window)
  | unmapWindow (w : Window)
  | removeFromSaveSet (w : Window)
  | destroyWindow (w : Window)
  | configureWindow (w : Window) (value_mask : Nat) (changes : XWindowChanges)
  | moveWindow (w : Window) (x y : Int)
  | resizeWindow (w : Window) (width height : Nat)
  | raiseWindow (w : Window)
  | getGeometry (w : Window)
deriving Repr, DecidableEq

def BORDER_WIDTH : Nat := 3

def BORDER_COLOR : Nat := 0xff0000

def BG_COLOR : Nat := 0x0000ff

namespace WindowManager

/-- `WindowManager::frame`.  `attrs` is the oracle result of
`XGetWindowAttributes` on `w`; `frameId` is the window id the server
returns from `XCreateSimpleWindow`. -/
def frame (st : WMState) (attrs : XWindowAttributes) (frameId : Window)
    (w : Window) (created_before : Bool) : WMState × List XCmd :=
  if containsKey st.clients w then (st, [])
  else if created_before
      && (attrs.override_redirect != 0 || attrs.map_state != IsViewable) then
    (st, [XCmd.getWindowAttributes w])
  else
    (⟨st.root, insertKey st.clients w frameId, st.drag⟩,
     [XCmd.getWindowAttributes w,
      XCmd.createSimpleWindow st.root attrs.x attrs.y
        (asU32 attrs.width) (asU32 attrs.height)
        BORDER_WIDTH BORDER_COLOR BG_COLOR,
      XCmd.selectInput frameId (SubstructureRedirectMask ||| SubstructureNotifyMask),
      XCmd.addToSaveSet w,
      XCmd.reparentWindow w frameId 0 0,
      XCmd.mapWindow frameId,
      XCmd.grabButton Button1 Mod1Mask w
        (ButtonPressMask ||| ButtonReleaseMask ||| ButtonMotionMask),
      XCmd.grabButton Button3 Mod1Mask w
        (ButtonPressMask ||| ButtonReleaseMask ||| ButtonMotionMask),
      XCmd.grabKeyAltF4 w])

/-- `WindowManager::unframe`. -/
def unframe (st : WMState) (w : Window) : WMState × List XCmd :=
  if containsKey st.clients w then
    let fr := lookupKey st.clients w
    (⟨st.root, eraseKey st.clients w, st.drag⟩,
     [XCmd.unmapWindow fr,
      XCmd.reparentWindow w st.root 0 0,
      XCmd.removeFromSaveSet w,
      XCmd.destroyWindow fr])
  else (st, [])

/-- `XMapRequestEvent`: the fields the source reads. -/
structure XMapRequestEvent where
  window : Window
deriving Repr, DecidableEq

/-- `XUnmapEvent`: the fields the source reads. -/
structure XUnmapEvent where
  event : Window
  window : Window
deriving Repr, DecidableEq

/-- `XConfigureRequestEvent`: the fields the source reads. -/
structure XConfigureRequestEvent where
  window : Window
  x : Int
  y : Int
  width : Int
  height : Int
  border_width : Int
  above : Window
  detail : Int
  value_mask : Nat
deriving Repr, DecidableEq

/-- `XButtonEvent`: the fields the source reads. -/
structure XButtonEvent where
  window : Window
  x_root : Int
  y_root : Int
deriving Repr, DecidableEq

/-- `XMotionEvent`: the fields the source reads. -/
structure XMotionEvent where
  window : Window
  x_root : Int
  y_root : Int
  state : Nat
deriving Repr, DecidableEq

/-- `WindowManager::map_request`. -/
def map_request (st : WMState) (attrs : XWindowAttributes) (frameId : Window)
    (e : XMapRequestEvent) : WMState × List XCmd :=
  let r := frame st attrs frameId e.window false
  (r.1, r.2 ++ [XCmd.mapWindow e.window])

/-- `WindowManager::unmap_notify`. -/
def unmap_notify (st : WMState) (e : XUnmapEvent) : WMState × List XCmd :=
  if e.event == st.root then (st, [])
  else unframe st e.window

/-- The `XWindowChanges` record `configure_request` builds from the event. -/
def changesOf (e : XConfigureRequestEvent) : XWindowChanges :=
  ⟨e.x, e.y, e.width, e.height, e.border_width, e.above, e.detail⟩

/-- `WindowManager::configure_request` (takes `&self`: no state change). -/
def configure_request (st : WMState) (e : XConfigureRequestEvent) :
    WMState × List XCmd :=
  let changes := changesOf e
  if containsKey st.clients e.window then
    (st, [XCmd.configureWindow (lookupKey st.clients e.window)
            (truncU32 e.value_mask) changes,
          XCmd.configureWindow e.window (truncU32 e.value_mask) changes])
  else
    (st, [XCmd.configureWindow e.window (truncU32 e.value_mask) changes])

/-- `WindowManager::button_press`.  `geomPos` and `geomSize` are the
oracle results of `XGetGeometry` on the frame (`x`, `y` as `c_int`;
`width`, `height` as `c_uint`, cast to `c_int` by the source). -/
def button_press (st : WMState) (geomPos : Int × Int) (geomSize : Nat × Nat)
    (e : XButtonEvent) : WMState × List XCmd :=
  if containsKey st.clients e.window then
    let fr := lookupKey st.clients e.window
    (⟨st.root, st.clients,
      ⟨(e.x_root, e.y_root), geomPos, (asI32 geomSize.1, asI32 geomSize.2)⟩⟩,
     [XCmd.getGeometry fr, XCmd.raiseWindow fr])
  else (st, [])

/-- `WindowManager::motion_notify` (takes `&self`: no state change, so
only the command trace is returned). -/
def motion_notify (st : WMState) (e : XMotionEvent) : List XCmd :=
  if containsKey st.clients e.window then
    let fr := lookupKey st.clients e.window
    let delta : Int × Int :=
      (e.x_root - st.drag.start_pos.1, e.y_root - st.drag.start_pos.2)
    if e.state &&& Button1Mask != 0 then
      let dest_frame_pos : Int × Int :=
        (st.drag.start_frame_pos.1 + delta.1, st.drag.start_frame_pos.2 + delta.2)
      [XCmd.moveWindow fr dest_frame_pos.1 dest_frame_pos.2]
    else if e.state &&& Button3Mask != 0 then
      let size_delta : Int × Int :=
        (max delta.1 (-st.drag.start_frame_size.1),
         max delta.2 (-st.drag.start_frame_size.2))
      let dest_frame_size : Nat × Nat :=
        (asU32 (st.drag.start_frame_size.1 + size_delta.1),
         asU32 (st.drag.start_frame_size.2 + size_delta.2))
      [XCmd.resizeWindow fr dest_frame_size.1 dest_frame_size.2,
       XCmd.resizeWindow e.window dest_frame_size.1 dest_frame_size.2]
    else []
  else []

end WindowManager

/-- Modelled from the spec: the display server applies a
configure-with-mask command by overwriting exactly the geometry fields
whose mask bit is set with the corresponding field of the supplied
changes, leaving every other field untouched (the server itself is an
external collaborator, absent from `src/`). -/
structure Geometry where
  x : Int
  y : Int
  width : Int
  height : Int
  border_width : Int
deriving Repr, DecidableEq

/-- Modelled from the spec: masked application of an `XConfigureWindow`
request to a window geometry — apply exactly the masked fields,
unmodified. -/
def applyConfigure (g : Geometry) (mask : Nat) (c : XWindowChanges) : Geometry :=
  ⟨if mask &&& CWX != 0 then c.x else g.x,
   if mask &&& CWY != 0 then c.y else g.y,
   if mask &&& CWWidth != 0 then c.width else g.width,
   if mask &&& CWHeight != 0 then c.height else g.height,
   if mask &&& CWBorderWidth != 0 then c.border_width else g.border_width⟩

/-! Registry helper lemmas. -/

theorem containsKey_eraseKey (m : Registry) (w : Window) :
    containsKey (eraseKey m w) w = false := by
  rw [containsKey, List.any_eq_false]
  intro p hp
  rcases List.mem_filter.mp hp with ⟨_, hne⟩
  simpa [bne_iff_ne] using hne

theorem countP_eraseKey (m : Registry) (w : Window) :
    (eraseKey m w).countP (fun p => p.1 == w) = 0 := by
  rw [List.countP_eq_zero]
  intro p hp
  rcases List.mem_filter.mp hp with ⟨_, hne⟩
  simpa [bne_iff_ne] using hne

theorem countP_insertKey (m : Registry) (w f : Window) :
    (insertKey m w f).countP (fun p => p.1 == w) = 1 := by
  simp [insertKey, List.countP_cons, countP_eraseKey m w]

theorem countP_eq_one_of_nodup (m : Registry) (w : Window)
    (hwf : (m.map Prod.fst).Nodup) (h : containsKey m w = true) :
    m.countP (fun p => p.1 == w) = 1 := by
  induction m with
  | nil => simp [containsKey] at h
  | cons a l ih =>
    rw [List.map_cons, List.nodup_cons] at hwf
    rcases hwf with ⟨hna, hnd⟩
    by_cases hw : a.1 = w
    · have hzero : l.countP (fun p => p.1 == w) = 0 := by
        rw [List.countP_eq_zero]
        intro p hp hbe
        have hpw : p.1 = w := by simpa using hbe
        exact hna (hw ▸ hpw ▸ List.mem_map_of_mem Prod.fst hp)
      simp [List.countP_cons, hw, hzero]
    · have h2 : containsKey l w = true := by
        simp only [containsKey, List.any_cons, Bool.or_eq_true, beq_iff_eq] at h ⊢
        rcases h with h | h
        · exact absurd h hw
        · exact h
      have := ih hnd h2
      simp [List.countP_cons, hw, this]

theorem unframe_not_containsKey (st : WMState) (w : Window) :
    containsKey ((WindowManager.unframe st w).1).clients w = false := by
  unfold WindowManager.unframe
  by_cases h : containsKey st.clients w = true
  · simp [h, containsKey_eraseKey]
  · rw [Bool.not_eq_true] at h
    simp [h]

theorem frame_noop_of_containsKey (st : WMState) (attrs : XWindowAttributes)
    (frameId w : Window) (b : Bool) (h : containsKey st.clients w = true) :
    WindowManager.frame st attrs frameId w b = (st, []) := by
  simp [WindowManager.frame, h]

/-! Claim theorems. -/

/-- Claim C1, counterexample: with a registered client and the drag slot
still in its zero-initialized default state (no press ever processed), a
pointer-motion event with the primary button bit set does issue a move
command — the drag slot is always present, so the claimed no-op fails. -/
theorem motion_before_press_still_moves :
    WindowManager.motion_notify ⟨1, [(2, 3)], DragInfo.default⟩ ⟨2, 5, 7, 256⟩ =
      [XCmd.moveWindow 3 5 7] := by decide

/-- Claim C1, amended: a pointer-motion event naming a registered client
whose button-state bitmask has neither the primary nor the secondary
button bit set performs no geometry change (issues no command at all). -/
theorem motion_no_button_no_geometry (st : WMState) (e : WindowManager.XMotionEvent)
    (hreg : containsKey st.clients e.window = true)
    (h1 : e.state &&& Button1Mask = 0)
    (h3 : e.state &&& Button3Mask = 0) :
    WindowManager.motion_notify st e = [] := by
  simp [WindowManager.motion_notify, hreg, h1, h3]

/-- Claim C1, witness for the amended theorem at a concrete input. -/
theorem motion_no_button_no_geometry_witness :
    WindowManager.motion_notify ⟨1, [(2, 3)], DragInfo.default⟩ ⟨2, 5, 7, 0⟩ = [] :=
  motion_no_button_no_geometry ⟨1, [(2, 3)], DragInfo.default⟩ ⟨2, 5, 7, 0⟩
    (by decide) (by decide) (by decide)

/-- Claim C4: a pointer-motion event on a registered client with the
primary button bit set moves the frame to exactly the drag session's start
frame position plus the delta between the current pointer position and the
session's start pointer position. -/
theorem motion_primary_moves_frame (st : WMState) (e : WindowManager.XMotionEvent)
    (hreg : containsKey st.clients e.window = true)
    (hbtn : e.state &&& Button1Mask ≠ 0) :
    WindowManager.motion_notify st e =
      [XCmd.moveWindow (lookupKey st.clients e.window)
        (st.drag.start_frame_pos.1 + (e.x_root - st.drag.start_pos.1))
        (st.drag.start_frame_pos.2 + (e.y_root - st.drag.start_pos.2))] := by
  have hb : (e.state &&& Button1Mask != 0) = true := by simpa [bne_iff_ne] using hbtn
  simp [WindowManager.motion_notify, hreg, hb]

/-- Claim C4, witness: press at frame position (10,10) and pointer
(100,100), then motion at pointer (110,105) with the primary button set,
moves the frame to exactly (20,15). -/
theorem motion_primary_moves_frame_witness :
    WindowManager.motion_notify
      ((WindowManager.button_press ⟨1, [(2, 3)], DragInfo.default⟩
          (10, 10) (50, 50) ⟨2, 100, 100⟩).1)
      ⟨2, 110, 105, 256⟩ = [XCmd.moveWindow 3 20 15] := by
  have h := motion_primary_moves_frame
    ((WindowManager.button_press ⟨1, [(2, 3)], DragInfo.default⟩
        (10, 10) (50, 50) ⟨2, 100, 100⟩).1)
    ⟨2, 110, 105, 256⟩ (by decide) (by decide)
  rw [h]; decide

/-- Claim C9: for every state, framing a window and then unframing it
leaves the registry not containing that window. -/
theorem frame_unframe_round_trip (st : WMState) (attrs : XWindowAttributes)
    (frameId w : Window) (b : Bool) :
    containsKey
      ((WindowManager.unframe
        ((WindowManager.frame st attrs frameId w b).1) w).1).clients w = false :=
  unframe_not_containsKey ((WindowManager.frame st attrs frameId w b).1) w

/-- Claim C10: an unmap notification whose event-target equals the root
window never triggers unframe — the state is unchanged and no command is
issued, whatever the notification's window field holds. -/
theorem unmap_notify_root_ignored (st : WMState) (e : WindowManager.XUnmapEvent)
    (h : e.event = st.root) :
    WindowManager.unmap_notify st e = (st, []) := by
  simp [WindowManager.unmap_notify, h]

/-- Claim C10, witness: at the root-targeted notification the registered
window 2 stays registered and nothing is emitted. -/
theorem unmap_notify_root_ignored_witness :
    WindowManager.unmap_notify ⟨1, [(2, 3)], DragInfo.default⟩ ⟨1, 2⟩ =
      (⟨1, [(2, 3)], DragInfo.default⟩, []) :=
  unmap_notify_root_ignored ⟨1, [(2, 3)], DragInfo.default⟩ ⟨1, 2⟩ rfl

/-- Claim C2: the drag slot is shared and untagged — after a press naming
registered client a, a motion naming a distinct registered client b with
the primary button bit set moves b's frame to a's recorded start frame
position plus the delta between b's pointer position and a's press pointer
position. -/
theorem drag_slot_shared_across_clients (st : WMState)
    (ea : WindowManager.XButtonEvent) (eb : WindowManager.XMotionEvent)
    (gpos : Int × Int) (gsize : Nat × Nat)
    (_hne : ea.window ≠ eb.window)
    (ha : containsKey st.clients ea.window = true)
    (hb : containsKey st.clients eb.window = true)
    (hbtn : eb.state &&& Button1Mask ≠ 0) :
    WindowManager.motion_notify
        ((WindowManager.button_press st gpos gsize ea).1) eb =
      [XCmd.moveWindow (lookupKey st.clients eb.window)
        (gpos.1 + (eb.x_root - ea.x_root))
        (gpos.2 + (eb.y_root - ea.y_root))] := by
  have hbb : (eb.state &&& Button1Mask != 0) = true := by simpa [bne_iff_ne] using hbtn
  simp [WindowManager.button_press, WindowManager.motion_notify, ha, hb, hbb]

/-- Claim C2, witness: press on client 10 at pointer (100,100) with its
frame at (10,10), then motion on distinct client 20 at pointer (110,105)
with the primary button set, moves client 20's frame to (20,15). -/
theorem drag_slot_shared_across_clients_witness :
    WindowManager.motion_notify
        ((WindowManager.button_press ⟨1, [(10, 11), (20, 21)], DragInfo.default⟩
            (10, 10) (50, 50) ⟨10, 100, 100⟩).1)
        ⟨20, 110, 105, 256⟩ = [XCmd.moveWindow 21 20 15] := by
  have h := drag_slot_shared_across_clients ⟨1, [(10, 11), (20, 21)], DragInfo.default⟩
    ⟨10, 100, 100⟩ ⟨20, 110, 105, 256⟩ (10, 10) (50, 50)
    (by decide) (by decide) (by decide) (by decide)
  rw [h]; decide

/-- Claim C3, counterexample: a motion event whose state has the secondary
button bit set but also the primary bit (state 1280 = both bits) is handled
by the move branch — no resize command is issued at all, although the claim
as stated demands a resize to (0,0) for a (−200,−200) delta on a (50,50)
start size. -/
theorem motion_secondary_with_primary_no_resize :
    WindowManager.motion_notify ⟨1, [(2, 3)], ⟨(200, 200), (10, 10), (50, 50)⟩⟩
      ⟨2, 0, 0, 1280⟩ = [XCmd.moveWindow 3 (-190) (-190)] := by decide

/-- Claim C3, amended: for a motion event on a registered client with the
secondary button bit set and the primary bit clear, the size delta is each
axis of the pointer delta clamped to at least the negation of the start
frame size on that axis, the resulting size (start size plus clamped
delta) is nonnegative on both axes, and both the frame and the client are
resized to it. -/
theorem motion_secondary_resizes_clamped (st : WMState)
    (e : WindowManager.XMotionEvent)
    (hreg : containsKey st.clients e.window = true)
    (h1 : e.state &&& Button1Mask = 0)
    (h3 : e.state &&& Button3Mask ≠ 0) :
    0 ≤ st.drag.start_frame_size.1 +
        max (e.x_root - st.drag.start_pos.1) (-st.drag.start_frame_size.1) ∧
    0 ≤ st.drag.start_frame_size.2 +
        max (e.y_root - st.drag.start_pos.2) (-st.drag.start_frame_size.2) ∧
    WindowManager.motion_notify st e =
      [XCmd.resizeWindow (lookupKey st.clients e.window)
        (asU32 (st.drag.start_frame_size.1 +
          max (e.x_root - st.drag.start_pos.1) (-st.drag.start_frame_size.1)))
        (asU32 (st.drag.start_frame_size.2 +
          max (e.y_root - st.drag.start_pos.2) (-st.drag.start_frame_size.2))),
       XCmd.resizeWindow e.window
        (asU32 (st.drag.start_frame_size.1 +
          max (e.x_root - st.drag.start_pos.1) (-st.drag.start_frame_size.1)))
        (asU32 (st.drag.start_frame_size.2 +
          max (e.y_root - st.drag.start_pos.2) (-st.drag.start_frame_size.2)))] := by
  have hbb : (e.state &&& Button3Mask != 0) = true := by simpa [bne_iff_ne] using h3
  refine ⟨?_, ?_, ?_⟩
  · linarith [le_max_right (e.x_root - st.drag.start_pos.1) (-st.drag.start_frame_size.1)]
  · linarith [le_max_right (e.y_root - st.drag.start_pos.2) (-st.drag.start_frame_size.2)]
  · simp [WindowManager.motion_notify, hreg, h1, hbb]

/-- Claim C3, witness: start frame size (50,50), press pointer (200,200),
motion pointer (0,0) — a delta of (−200,−200) — with only the secondary
button set resizes frame and client to exactly (0,0). -/
theorem motion_secondary_resizes_clamped_witness :
    WindowManager.motion_notify ⟨1, [(2, 3)], ⟨(200, 200), (10, 10), (50, 50)⟩⟩
      ⟨2, 0, 0, 1024⟩ = [XCmd.resizeWindow 3 0 0, XCmd.resizeWindow 2 0 0] := by
  have h := motion_secondary_resizes_clamped
    ⟨1, [(2, 3)], ⟨(200, 200), (10, 10), (50, 50)⟩⟩ ⟨2, 0, 0, 1024⟩
    (by decide) (by decide) (by decide)
  rw [h.2.2]; decide

/-- Claim C7: on the startup enumeration path, a window whose attributes
have override-redirect set or whose map state is not viewable is never
inserted into the registry (the whole state is unchanged) and no frame is
created for it (at most the attributes query is issued). -/
theorem frame_startup_filter (st : WMState) (attrs : XWindowAttributes)
    (frameId w : Window)
    (h : attrs.override_redirect ≠ 0 ∨ attrs.map_state ≠ IsViewable) :
    (WindowManager.frame st attrs frameId w true).1 = st ∧
    ((WindowManager.frame st attrs frameId w true).2 = [] ∨
     (WindowManager.frame st attrs frameId w true).2 = [XCmd.getWindowAttributes w]) := by
  have hc : (attrs.override_redirect != 0 || attrs.map_state != IsViewable) = true := by
    rcases h with h | h <;> simp [bne_iff_ne, h]
  by_cases hk : containsKey st.clients w = true
  · simp [WindowManager.frame, hk]
  · rw [Bool.not_eq_true] at hk
    simp [WindowManager.frame, hk, hc]

/-- Claim C7, witness: an override-redirect viewable window on an empty
registry is left unframed with only the attributes query issued. -/
theorem frame_startup_filter_witness :
    (WindowManager.frame ⟨1, [], DragInfo.default⟩ ⟨0, 0, 50, 50, 1, 2⟩ 6 5 true).1 =
      ⟨1, [], DragInfo.default⟩ ∧
    ((WindowManager.frame ⟨1, [], DragInfo.default⟩ ⟨0, 0, 50, 50, 1, 2⟩ 6 5 true).2 = [] ∨
     (WindowManager.frame ⟨1, [], DragInfo.default⟩ ⟨0, 0, 50, 50, 1, 2⟩ 6 5 true).2 =
       [XCmd.getWindowAttributes 5]) :=
  frame_startup_filter ⟨1, [], DragInfo.default⟩ ⟨0, 0, 50, 50, 1, 2⟩ 6 5
    (Or.inl (by decide))

/-- Claim C8: an unmap, configure, button-press or pointer-motion event
naming a window absent from the registry leaves the registry and the drag
slot unchanged and issues no command beyond the unconditional configure
pass-through to the client itself. -/
theorem unregistered_events_ignored (st : WMState)
    (eu : WindowManager.XUnmapEvent) (ec : WindowManager.XConfigureRequestEvent)
    (eb : WindowManager.XButtonEvent) (em : WindowManager.XMotionEvent)
    (gpos : Int × Int) (gsize : Nat × Nat)
    (hu : containsKey st.clients eu.window = false)
    (hc : containsKey st.clients ec.window = false)
    (hb : containsKey st.clients eb.window = false)
    (hm : containsKey st.clients em.window = false) :
    WindowManager.unmap_notify st eu = (st, []) ∧
    WindowManager.configure_request st ec =
      (st, [XCmd.configureWindow ec.window (truncU32 ec.value_mask)
              (WindowManager.changesOf ec)]) ∧
    WindowManager.button_press st gpos gsize eb = (st, []) ∧
    WindowManager.motion_notify st em = [] := by
  refine ⟨?_, ?_, ?_, ?_⟩
  · unfold WindowManager.unmap_notify
    split
    · rfl
    · simp [WindowManager.unframe, hu]
  · simp [WindowManager.configure_request, hc]
  · simp [WindowManager.button_press, hb]
  · simp [WindowManager.motion_notify, hm]

/-- Claim C8, witness: events naming the unregistered window 9 against a
registry holding only client 2 are all ignored as specified. -/
theorem unregistered_events_ignored_witness :
    WindowManager.unmap_notify ⟨1, [(2, 3)], DragInfo.default⟩ ⟨4, 9⟩ =
      (⟨1, [(2, 3)], DragInfo.default⟩, []) ∧
    WindowManager.configure_request ⟨1, [(2, 3)], DragInfo.default⟩
        ⟨9, 4, 5, 6, 7, 8, 0, 0, 12⟩ =
      (⟨1, [(2, 3)], DragInfo.default⟩,
       [XCmd.configureWindow 9 (truncU32 12)
          (WindowManager.changesOf ⟨9, 4, 5, 6, 7, 8, 0, 0, 12⟩)]) ∧
    WindowManager.button_press ⟨1, [(2, 3)], DragInfo.default⟩ (0, 0) (0, 0) ⟨9, 5, 5⟩ =
      (⟨1, [(2, 3)], DragInfo.default⟩, []) ∧
    WindowManager.motion_notify ⟨1, [(2, 3)], DragInfo.default⟩ ⟨9, 5, 5, 256⟩ = [] :=
  unregistered_events_ignored ⟨1, [(2, 3)], DragInfo.default⟩ ⟨4, 9⟩
    ⟨9, 4, 5, 6, 7, 8, 0, 0, 12⟩ ⟨9, 5, 5⟩ ⟨9, 5, 5, 256⟩ (0, 0) (0, 0)
    (by decide) (by decide) (by decide) (by decide)

/-- Claim C5, counterexample: with created_before true and attributes that
fail the startup filter (override-redirect set), calling frame twice on
window 5 leaves the registry with no entry for 5 at all — not exactly one
— and the second call still issues the attributes query to the server. -/
theorem frame_twice_filtered_leaves_no_entry :
    ((WindowManager.frame
        ((WindowManager.frame ⟨1, [], DragInfo.default⟩ ⟨0, 0, 50, 50, 1, 2⟩ 6 5 true).1)
        ⟨0, 0, 50, 50, 1, 2⟩ 6 5 true).1).clients = [] ∧
    (WindowManager.frame
        ((WindowManager.frame ⟨1, [], DragInfo.default⟩ ⟨0, 0, 50, 50, 1, 2⟩ 6 5 true).1)
        ⟨0, 0, 50, 50, 1, 2⟩ 6 5 true).2 = [XCmd.getWindowAttributes 5] := by decide

/-- Claim C5, amended: whenever the first frame call leaves w registered
(always the case when created_before is false; when it is true, whenever
the attributes pass the startup filter), the registry holds exactly one
entry for w and the second frame call performs no server operation and no
state change. -/
theorem frame_idempotent_when_registered (st : WMState)
    (attrs attrs2 : XWindowAttributes) (fid fid2 w : Window) (b b2 : Bool)
    (hwf : (st.clients.map Prod.fst).Nodup)
    (hreg : containsKey ((WindowManager.frame st attrs fid w b).1).clients w = true) :
    ((WindowManager.frame st attrs fid w b).1).clients.countP (fun p => p.1 == w) = 1 ∧
    WindowManager.frame ((WindowManager.frame st attrs fid w b).1) attrs2 fid2 w b2 =
      ((WindowManager.frame st attrs fid w b).1, []) := by
  refine ⟨?_, frame_noop_of_containsKey _ attrs2 fid2 w b2 hreg⟩
  by_cases hk : containsKey st.clients w = true
  · have h1 : (WindowManager.frame st attrs fid w b).1 = st := by
      simp [WindowManager.frame, hk]
    rw [h1]
    exact countP_eq_one_of_nodup st.clients w hwf hk
  · rw [Bool.not_eq_true] at hk
    by_cases hf : (b && (attrs.override_redirect != 0 || attrs.map_state != IsViewable)) = true
    · have h1 : (WindowManager.frame st attrs fid w b).1 = st := by
        simp [WindowManager.frame, hk, hf]
      rw [h1] at hreg
      simp [hk] at hreg
    · rw [Bool.not_eq_true] at hf
      have h1 : (WindowManager.frame st attrs fid w b).1 =
          ⟨st.root, insertKey st.clients w fid, st.drag⟩ := by
        simp [WindowManager.frame, hk, hf]
      rw [h1]
      exact countP_insertKey st.clients w fid

/-- Claim C5, witness for the amended theorem: two frame calls on window 5
with created_before false leave exactly one registry entry for 5 and the
second call is a complete no-op. -/
theorem frame_idempotent_when_registered_witness :
    ((WindowManager.frame ⟨1, [], DragInfo.default⟩ ⟨0, 0, 50, 50, 0, 2⟩ 6 5 false).1).clients.countP
      (fun p => p.1 == 5) = 1 ∧
    WindowManager.frame
        ((WindowManager.frame ⟨1, [], DragInfo.default⟩ ⟨0, 0, 50, 50, 0, 2⟩ 6 5 false).1)
        ⟨0, 0, 50, 50, 0, 2⟩ 7 5 false =
      ((WindowManager.frame ⟨1, [], DragInfo.default⟩ ⟨0, 0, 50, 50, 0, 2⟩ 6 5 false).1, []) :=
  frame_idempotent_when_registered ⟨1, [], DragInfo.default⟩
    ⟨0, 0, 50, 50, 0, 2⟩ ⟨0, 0, 50, 50, 0, 2⟩ 6 7 5 false false
    (by decide) (by decide)

/-- Claim C6: a configure request leaves the manager state unchanged,
forwards the event's fields unmodified with the event's mask to the client
window, and to the client's frame exactly when the client is registered;
under the masked-application semantics, a mask selecting only width and
height leaves x and y of any geometry unchanged while setting width and
height to the requested values. -/
theorem configure_request_masked_pass_through (st : WMState)
    (e : WindowManager.XConfigureRequestEvent) (g : Geometry) :
    (WindowManager.configure_request st e).1 = st ∧
    (WindowManager.configure_request st e).2 =
      (if containsKey st.clients e.window = true then
        [XCmd.configureWindow (lookupKey st.clients e.window) (truncU32 e.value_mask)
           (WindowManager.changesOf e)]
       else []) ++
      [XCmd.configureWindow e.window (truncU32 e.value_mask) (WindowManager.changesOf e)] ∧
    (e.value_mask = CWWidth ||| CWHeight →
      applyConfigure g (truncU32 e.value_mask) (WindowManager.changesOf e) =
        ⟨g.x, g.y, e.width, e.height, g.border_width⟩) := by
  refine ⟨?_, ?_, ?_⟩
  · by_cases hk : containsKey st.clients e.window = true
    · simp [WindowManager.configure_request, hk]
    · rw [Bool.not_eq_true] at hk
      simp [WindowManager.configure_request, hk]
  · by_cases hk : containsKey st.clients e.window = true
    · simp [WindowManager.configure_request, hk]
    · rw [Bool.not_eq_true] at hk
      simp [WindowManager.configure_request, hk]
  · intro h
    rw [h]
    simp [applyConfigure, WindowManager.changesOf, truncU32,
      CWX, CWY, CWWidth, CWHeight, CWBorderWidth]
    exact ⟨fun hc => absurd (by decide) hc, fun hc => absurd (by decide) hc⟩

/-- Claim C6, witness: a request with mask 12 (width and height only) on
geometry (7,9,1,2,3) yields (7,9,100,200,3) — x and y untouched. -/
theorem configure_request_masked_pass_through_witness :
    applyConfigure ⟨7, 9, 1, 2, 3⟩ (truncU32 12)
      (WindowManager.changesOf ⟨2, 40, 41, 100, 200, 5, 0, 0, 12⟩) =
      ⟨7, 9, 100, 200, 3⟩ :=
  (configure_request_masked_pass_through ⟨1, [(2, 3)], DragInfo.default⟩
    ⟨2, 40, 41, 100, 200, 5, 0, 0, 12⟩ ⟨7, 9, 1, 2, 3⟩).2.2 (by decide)

end SimpleWM
